import Mathlib

/-!
Verification of the share-link codec of the annotate_video application.

The definitions below are a shallow embedding of the TypeScript source:
`handleShare`, `handleSharePlaylist` and the two shared-data decoding
effects (`?d=` video shares and `?p=` playlist shares), together with the
browser primitives `btoa` / `atob` (standard base64) that the code calls.
The deflate compressor (`pako`) and `JSON.stringify` / `JSON.parse` are
external black boxes for the application; they are taken as parameters,
with their round-trip contracts assumed pointwise where a theorem needs
them.  Bytes are `Nat` values (the code only ever feeds values below 256
into `btoa`); JavaScript run-time values reaching the decoder are modelled
by the dynamic value type `JVal`, which includes `undefined`.
-/

namespace AnnotateVideo

set_option maxRecDepth 10000

/-! ## Base64 (`btoa` / `atob`) -/

/-- The 64-symbol standard base64 alphabet, in index order. -/
def b64Chars : List Char :=
  "ABCDEFGHIJKLMNOPQRSTUVWXYZabcdefghijklmnopqrstuvwxyz0123456789+/".toList

/-- Character for a 6-bit group (reduced mod 64, so the function is total). -/
def b64Char (n : Nat) : Char := b64Chars.getD (n % 64) 'A'

/-- Index of a character in the base64 alphabet; `none` for foreign symbols. -/
def b64Idx (c : Char) : Option Nat := b64Chars.findIdx? (fun d => d = c)

/-- Model of the browser `btoa`: bytes to base64 characters, three bytes per
four symbols, `=`-padded final group. -/
def btoaL : List Nat → List Char
  | [] => []
  | [b1] => [b64Char (b1 / 4), b64Char (b1 % 4 * 16), '=', '=']
  | [b1, b2] => [b64Char (b1 / 4), b64Char (b1 % 4 * 16 + b2 / 16),
      b64Char (b2 % 16 * 4), '=']
  | b1 :: b2 :: b3 :: rest =>
      b64Char (b1 / 4) :: b64Char (b1 % 4 * 16 + b2 / 16) ::
      b64Char (b2 % 16 * 4 + b3 / 64) :: b64Char (b3 % 64) :: btoaL rest

/-- Model of the browser `atob`: base64 characters back to bytes; fails on a
symbol outside the alphabet or on a malformed group/length. -/
def atobL : List Char → Option (List Nat)
  | [] => some []
  | c1 :: c2 :: c3 :: c4 :: rest =>
      (b64Idx c1).bind fun n1 =>
      (b64Idx c2).bind fun n2 =>
      if c3 = '=' then
        if c4 = '=' ∧ rest = [] then some [n1 * 4 + n2 / 16] else none
      else
        (b64Idx c3).bind fun n3 =>
        if c4 = '=' then
          if rest = [] then
            some [n1 * 4 + n2 / 16, n2 % 16 * 16 + n3 / 4]
          else none
        else
          (b64Idx c4).bind fun n4 =>
          (atobL rest).map
            (fun tl => (n1 * 4 + n2 / 16) :: (n2 % 16 * 16 + n3 / 4) ::
              (n3 % 4 * 64 + n4) :: tl)
  | _ => none

/-! ## URL-safe remap (from `handleShare` / the decode effects) -/

/-- Forward character remap `+ to -` and `/ to _` (the two global
`String.replace` calls in `handleShare`). -/
def urlSafeChar (c : Char) : Char :=
  if c = '+' then '-' else if c = '/' then '_' else c

/-- Reverse character remap `- to +` and `_ to /` (decode side). -/
def fromUrlSafeChar (c : Char) : Char :=
  if c = '-' then '+' else if c = '_' then '/' else c

/-- Strip every trailing `=` (the `replace` with pattern `=+$`). -/
def stripTrailingEq (cs : List Char) : List Char :=
  ((cs.reverse.dropWhile (fun c => c = '=')).reverse)

/-- The encode-side URL-safe remap: character remap, then padding strip. -/
def makeUrlSafe (cs : List Char) : List Char :=
  stripTrailingEq (cs.map urlSafeChar)

/-- Decode-side re-padding to a multiple of four characters. -/
def rePad (cs : List Char) : List Char :=
  cs ++ List.replicate ((4 - cs.length % 4) % 4) '='

/-- The decode-side reverse remap: character restore, then re-pad. -/
def decodeRemapL (cs : List Char) : List Char :=
  rePad (cs.map fromUrlSafeChar)

/-! ## Dynamic JavaScript values

Values flowing out of `JSON.parse` and through property accesses are
modelled by `JVal`.  `jundefined` is the JavaScript `undefined` (a property
access on an object lacking the key); `jnull` is JSON `null`.  Numbers are
rationals, which covers every numeric value the codec produces. -/

inductive JVal where
  | jundefined : JVal
  | jnull : JVal
  | jbool : Bool → JVal
  | jnum : ℚ → JVal
  | jstr : String → JVal
  | jarr : List JVal → JVal
  | jobj : List (String × JVal) → JVal

/-- JavaScript truthiness of a value. -/
def JVal.truthy : JVal → Bool
  | .jundefined => false
  | .jnull => false
  | .jbool b => b
  | .jnum q => q ≠ 0
  | .jstr s => s ≠ ""
  | .jarr _ => true
  | .jobj _ => true

/-- Property access `v.k`.  `none` models the thrown `TypeError` when the
base value is `null` or `undefined`; a missing key on an object (and any
key on another primitive) yields `undefined`. -/
def getField : JVal → String → Option JVal
  | .jundefined, _ => none
  | .jnull, _ => none
  | .jobj fs, k => some ((fs.lookup k).getD .jundefined)
  | _, _ => some .jundefined

/-- View a value as a JavaScript array (for `.map`); `none` models the
`TypeError` raised when calling `.map` on a non-array. -/
def asArray : JVal → Option (List JVal)
  | .jarr xs => some xs
  | _ => none

/-- JavaScript `.length` as read by the `as.length > 0` guard: array
length, string length, and `0` standing for the non-number `undefined`
of other values (whose `> 0` comparison is false either way). -/
def jsLength : JVal → Nat
  | .jarr xs => xs.length
  | .jstr s => s.length
  | _ => 0

/-- JavaScript string coercion, used by the template literal building the
watch URL.  Primitives are faithful; composite values are irrelevant to
every claim and map to the empty string. -/
def jvalToString : JVal → String
  | .jundefined => "undefined"
  | .jnull => "null"
  | .jbool b => if b then "true" else "false"
  | .jnum q => toString q
  | .jstr s => s
  | .jarr _ => ""
  | .jobj _ => ""

/-- Truthiness of an optional string state variable (JS `string | null`). -/
def optStrTruthy : Option String → Bool
  | some s => s ≠ ""
  | none => false

/-- Truthiness of an optional boolean field (JS `boolean | undefined`). -/
def optBoolTruthy : Option Bool → Bool
  | some b => b
  | none => false

/-! ## Domain data (the TypeScript interfaces the encoder reads) -/

/-- Source interface `Annotation`: a timestamped note. -/
structure Annot where
  id : String
  timestamp : ℚ
  title : String
  description : Option String
deriving Repr, DecidableEq

/-- Source interface `PlaylistItem`. -/
structure PlaylistItem where
  id : String
  videoId : String
  url : String
  title : String
  isLocalFile : Option Bool
  localFileName : Option String
deriving Repr, DecidableEq

/-- Source interface `Playlist`. -/
structure Playlist where
  id : String
  name : String
  items : List PlaylistItem
  createdAt : ℚ
  loop : Bool
  startRandom : Option Bool
  randomTime : Option Bool
deriving Repr, DecidableEq

/-- Source interface `AmbientSound`. -/
structure AmbientSound where
  id : String
  videoId : String
  title : String
deriving Repr, DecidableEq

/-- Source interface `Folder`. -/
structure Folder where
  id : String
  name : String
  parentId : Option String
  isExpanded : Bool
deriving Repr, DecidableEq

/-- Source interface `SavedVideo`. -/
structure SavedVideo where
  id : String
  videoId : String
  title : String
  url : String
  generalNotes : String
  annotations : List Annot
  createdAt : ℚ
  isLocalFile : Option Bool
  localFileName : Option String
deriving Repr, DecidableEq

/-- The slice of component state `handleShare` reads: the live video
session.  `videoTitle` is included to make explicit that the encoder never
reads it. -/
structure ShareState where
  videoId : Option String
  localVideoUrl : Option String
  localVideoName : String
  videoTitle : String
  generalNotes : String
  annotations : List Annot
deriving Repr, DecidableEq

/-! ## Encode pipeline (`handleShare`, `handleSharePlaylist`) -/

/-- Wire image of one annotation: keys `t`, `n`, and `d` only when the
description is truthy (the conditional spread in `handleShare`). -/
def annToWire (a : Annot) : JVal :=
  .jobj ([("t", .jnum a.timestamp), ("n", .jstr a.title)] ++
    (match a.description with
     | some d => if d = "" then [] else [("d", .jstr d)]
     | none => []))

/-- The compact video-share object `compactData` built by `handleShare`. -/
def compactShareData (st : ShareState) : JVal :=
  .jobj ([("v", .jstr (st.videoId.getD "")),
    ("t", .jstr (if st.localVideoName = "" then "Shared Video" else st.localVideoName)),
    ("g", .jstr st.generalNotes),
    ("a", .jarr (st.annotations.map annToWire))] ++
    (if optStrTruthy st.localVideoUrl then [("l", .jbool true)] else []))

/-- Wire image of one playlist item: blob URLs of local files are replaced
by the empty string, and `l` / `f` appear only for local files (the
conditional spread in `handleSharePlaylist`). -/
def itemToWire (it : PlaylistItem) : JVal :=
  .jobj ([("v", .jstr it.videoId),
    ("u", .jstr (if optBoolTruthy it.isLocalFile then "" else it.url)),
    ("t", .jstr it.title)] ++
    (if optBoolTruthy it.isLocalFile then
      [("l", .jbool true)] ++
        (match it.localFileName with
         | some f => [("f", .jstr f)]
         | none => [])
     else []))

/-- Wire image of one ambient sound. -/
def ambientToWire (s : AmbientSound) : JVal :=
  .jobj [("v", .jstr s.videoId), ("t", .jstr s.title)]

/-- The compact playlist object `compactPlaylist` built by
`handleSharePlaylist`; `ambient` is `appData.ambientSounds`. -/
def compactPlaylistData (p : Playlist) (ambient : Option (List AmbientSound)) : JVal :=
  .jobj ([("n", .jstr p.name),
    ("i", .jarr (p.items.map itemToWire)),
    ("lp", .jbool p.loop)] ++
    (if optBoolTruthy p.startRandom then [("sr", .jbool true)] else []) ++
    (if optBoolTruthy p.randomTime then [("rt", .jbool true)] else []) ++
    (match ambient with
     | some l => if 0 < l.length then [("as", .jarr (l.map ambientToWire))] else []
     | none => []))

/-- The URL-safe payload built from a compact object: serialize, deflate,
base64, URL-safe remap.  `stringify` and `deflate` are the external
`JSON.stringify` and `pako.deflate`. -/
def encodePayload (deflate : String → List Nat) (stringify : JVal → String)
    (w : JVal) : List Char :=
  makeUrlSafe (btoaL (deflate (stringify w)))

/-- Outcome of `handleShare`: early return without a video, a size-exceeded
rejection, or the transmitted URL. -/
inductive ShareResult where
  | noVideo : ShareResult
  | tooLong : Nat → ShareResult
  | shared : String → ShareResult
deriving Repr, DecidableEq

/-- The `handleShare` handler: guard, compact projection, encode, embed in
the URL template, 8000-character check, transmit. -/
def handleShare (deflate : String → List Nat) (stringify : JVal → String)
    (origin pathname : String) (st : ShareState) : ShareResult :=
  if !optStrTruthy st.videoId && !optStrTruthy st.localVideoUrl then .noVideo
  else
    let shareUrl := origin ++ pathname ++ "?d=" ++
      String.mk (encodePayload deflate stringify (compactShareData st))
    if shareUrl.length > 8000 then .tooLong shareUrl.length
    else .shared shareUrl

/-- The `handleSharePlaylist` handler: empty-playlist guard, compact
projection (including the ambient-sound library), encode, 8000-character
check, transmit. -/
def handleSharePlaylist (deflate : String → List Nat) (stringify : JVal → String)
    (origin pathname : String) (p : Playlist)
    (ambient : Option (List AmbientSound)) : ShareResult :=
  if p.items.length = 0 then .noVideo
  else
    let shareUrl := origin ++ pathname ++ "?p=" ++
      String.mk (encodePayload deflate stringify (compactPlaylistData p ambient))
    if shareUrl.length > 8000 then .tooLong shareUrl.length
    else .shared shareUrl

/-! ## Decode pipeline (the shared-data `useEffect`s)

The decoder runs inside a `try`/`catch`; every stage failure is swallowed
by the `catch` (reported via `console.error`), so the transformers below
are total and return the state reached so far together with a success
flag (`false` exactly when the `catch` ran).  Values written by the
decoder come from untrusted JSON and are stored as `JVal`. -/

/-- A reconstructed annotation as built by the decode effect. -/
structure DecAnnot where
  id : String
  timestamp : JVal
  title : JVal
  description : JVal

/-- A reconstructed `SavedVideo` (the `sharedVideo` pending relink). -/
structure DecSavedVideo where
  id : String
  videoId : String
  title : JVal
  url : String
  generalNotes : JVal
  annotations : List DecAnnot
  createdAt : ℚ
  isLocalFile : Bool
  localFileName : JVal

/-- A reconstructed playlist item. -/
structure DecPlaylistItem where
  id : String
  videoId : JVal
  url : JVal
  title : JVal
  isLocalFile : JVal
  localFileName : JVal

/-- A reconstructed playlist (the `sharedPlaylist`). -/
structure DecPlaylist where
  id : String
  name : JVal
  items : List DecPlaylistItem
  createdAt : ℚ
  loop : JVal
  startRandom : JVal
  randomTime : JVal

/-- A reconstructed ambient sound. -/
structure DecAmbientSound where
  id : String
  videoId : JVal
  title : JVal

/-- The Session Store (`appData`), with the ambient-sound library holding
decoder-written values after a playlist import. -/
structure AppDataD where
  folders : List Folder
  videos : List SavedVideo
  playlists : List Playlist
  ambientSounds : Option (List DecAmbientSound)

/-- The component state the two decode effects read and write. -/
structure SessionState where
  generalNotes : JVal
  annotations : List DecAnnot
  videoId : JVal
  videoUrl : JVal
  localVideoUrl : Option String
  localVideoName : JVal
  videoTitle : String
  currentVideo : Option DecSavedVideo
  localVideosToLink : List DecSavedVideo
  currentLinkingVideo : Option DecSavedVideo
  showImportModal : Bool
  activePlaylist : Option DecPlaylist
  playlistIndex : Nat
  isPlaylistMode : Bool
  sidebarTab : String
  appData : AppDataD
  ambientVideoId : JVal
  currentAmbientId : JVal
  ambientVideoTitle : JVal
  ambientPlaying : Bool

/-- Decode the annotation array: `compactData.a.map((ann, idx) => ...)`.
Fails (JS `TypeError`) when an element is `null`/`undefined`. -/
def decAnnotsFrom (idx : Nat) : List JVal → Option (List DecAnnot)
  | [] => some []
  | ann :: rest =>
      (getField ann "t").bind fun t =>
      (getField ann "n").bind fun n =>
      (getField ann "d").bind fun d =>
      (decAnnotsFrom (idx + 1) rest).map fun tl =>
        ⟨"shared_" ++ toString idx, t, n, d⟩ :: tl

/-- Decode the playlist item array:
`compactPlaylist.i.map((item, idx) => ...)`. -/
def decItemsFrom (idx : Nat) : List JVal → Option (List DecPlaylistItem)
  | [] => some []
  | item :: rest =>
      (getField item "v").bind fun v =>
      (getField item "u").bind fun u =>
      (getField item "t").bind fun t =>
      (getField item "l").bind fun l =>
      (getField item "f").bind fun f =>
      (decItemsFrom (idx + 1) rest).map fun tl =>
        ⟨"item_" ++ toString idx, v, u, t, l, f⟩ :: tl

/-- Decode the ambient-sound array:
`compactPlaylist.as.map((sound, idx) => ...)`; identifiers embed the
current clock value `now` (`Date.now()`). -/
def decAmbientFrom (now : Nat) (idx : Nat) : List JVal → Option (List DecAmbientSound)
  | [] => some []
  | s :: rest =>
      (getField s "v").bind fun v =>
      (getField s "t").bind fun t =>
      (decAmbientFrom now (idx + 1) rest).map fun tl =>
        ⟨"ambient_" ++ toString now ++ "_" ++ toString idx, v, t⟩ :: tl

/-- The string stages shared by both decode effects: reverse URL-safe
remap, `atob`, `pako.inflate`, `JSON.parse`. -/
def decodeStages (inflate : List Nat → Option String)
    (parseJson : String → Option JVal) (data : String) : Option JVal :=
  (atobL (decodeRemapL data.toList)).bind fun bytes =>
  (inflate bytes).bind fun decompressed =>
  parseJson decompressed

/-- The shared-data (`?d=`) decode effect.  Returns the final component
state and `false` when the `catch` block ran.  Note the setter ordering of
the source: `setGeneralNotes` runs before the annotation array is
validated, so a payload whose `a` is missing leaves the notes updated. -/
def decodeSharedData (inflate : List Nat → Option String)
    (parseJson : String → Option JVal) (now : Nat) (data : String)
    (st : SessionState) : SessionState × Bool :=
  match decodeStages inflate parseJson data with
  | none => (st, false)
  | some cd =>
    match getField cd "g" with
    | none => (st, false)
    | some g =>
      let st1 := { st with generalNotes := g }
      match (getField cd "a").bind asArray with
      | none => (st1, false)
      | some xs =>
        match decAnnotsFrom 0 xs with
        | none => (st1, false)
        | some anns =>
          let st2 := { st1 with annotations := anns }
          match getField cd "l", getField cd "t", getField cd "v" with
          | some l, some t, some v =>
            if l.truthy then
              let sharedVideo : DecSavedVideo :=
                { id := "shared_" ++ toString now, videoId := "", title := t,
                  url := "", generalNotes := g, annotations := anns,
                  createdAt := (now : ℚ), isLocalFile := true,
                  localFileName := t }
              ({ st2 with
                  localVideoName := t, videoId := .jnull,
                  videoUrl := .jstr "", localVideoUrl := none,
                  localVideosToLink := [sharedVideo],
                  currentLinkingVideo := some sharedVideo,
                  showImportModal := true }, true)
            else
              ({ st2 with
                  videoId := v,
                  videoUrl := .jstr ("https://youtube.com/watch?v=" ++ jvalToString v),
                  localVideoUrl := none, localVideoName := .jstr "" }, true)
          | _, _, _ => (st2, false)

/-- Indexed `findIndex` (the decoder's playable-item search). -/
def findIdxWith (p : DecPlaylistItem → Nat → Bool) :
    List DecPlaylistItem → Nat → Option Nat
  | [], _ => none
  | a :: rest, i => if p a i then some i else findIdxWith p rest (i + 1)

/-- Fallback item for in-bounds indexing (never observed by any claim). -/
def dummyItem : DecPlaylistItem := ⟨"", .jundefined, .jundefined, .jundefined, .jundefined, .jundefined⟩

/-- The playlist-start block at the end of the playlist decode effect:
random or first playable index selection and the batch of setters that
activates the playlist. -/
def startPlaylist (rand : Nat) (sharedPlaylist : DecPlaylist)
    (st : SessionState) : SessionState × Bool :=
  let items := sharedPlaylist.items
  let startIndex :=
    if sharedPlaylist.startRandom.truthy && decide (0 < items.length) then
      rand % items.length
    else 0
  let firstPlayable := findIdxWith
    (fun item i => !item.isLocalFile.truthy &&
      (if sharedPlaylist.startRandom.truthy then i == startIndex else true))
    items 0
  let actualStart :=
    match firstPlayable with
    | some i => some i
    | none => findIdxWith (fun item _ => !item.isLocalFile.truthy) items 0
  match actualStart with
  | some i =>
      let item := items.getD i dummyItem
      ({ st with
          activePlaylist := some sharedPlaylist, playlistIndex := i,
          isPlaylistMode := true, videoId := item.videoId, videoUrl := item.url,
          localVideoUrl := none, localVideoName := .jstr "",
          currentVideo := none, generalNotes := .jstr "", annotations := [],
          sidebarTab := "playlists" }, true)
  | none => (st, true)

/-- The shared-playlist (`?p=`) decode effect.  `now` is `Date.now()` and
`rand` drives `Math.random()`'s start-index choice. -/
def decodeSharedPlaylist (inflate : List Nat → Option String)
    (parseJson : String → Option JVal) (now rand : Nat) (pdata : String)
    (st : SessionState) : SessionState × Bool :=
  match decodeStages inflate parseJson pdata with
  | none => (st, false)
  | some cp =>
    match getField cp "n", getField cp "lp", getField cp "sr",
        getField cp "rt", getField cp "as" with
    | some n, some lp, some sr, some rt, some asv =>
      match (getField cp "i").bind asArray with
      | none => (st, false)
      | some ixs =>
        match decItemsFrom 0 ixs with
        | none => (st, false)
        | some items =>
          let sharedPlaylist : DecPlaylist :=
            { id := "shared_" ++ toString now, name := n, items := items,
              createdAt := (now : ℚ), loop := lp, startRandom := sr,
              randomTime := rt }
          if asv.truthy && decide (0 < jsLength asv) then
            match asArray asv with
            | none => (st, false)
            | some axs =>
              match decAmbientFrom now 0 axs with
              | none => (st, false)
              | some sounds =>
                match sounds with
                | [] =>
                    ({ st with
                       appData := { st.appData with ambientSounds := some [] } },
                     false)
                | first :: _ =>
                  let stA := { st with
                    appData := { st.appData with ambientSounds := some sounds },
                    ambientVideoId := first.videoId,
                    currentAmbientId := first.videoId,
                    ambientVideoTitle := first.title,
                    ambientPlaying := true }
                  startPlaylist rand sharedPlaylist stA
          else
            startPlaylist rand sharedPlaylist st
    | _, _, _, _, _ => (st, false)

/-! ## Statement helpers

Derived descriptions of what the decoder produces on well-formed wire
data, and reference states used by concrete instantiations.  These are
used only to phrase theorems; the executable model is above. -/

/-- The wire image of an optional description: `d` is absent (hence read
back as `undefined`) exactly when the description is falsy. -/
def descWire : Option String → JVal
  | some d => if d = "" then .jundefined else .jstr d
  | none => .jundefined

/-- The decoded image of a domain annotation list: positional `shared_i`
identifiers, wire order preserved. -/
def decodedAnnotsOf : Nat → List Annot → List DecAnnot
  | _, [] => []
  | i, a :: rest =>
      ⟨"shared_" ++ toString i, .jnum a.timestamp, .jstr a.title,
        descWire a.description⟩ :: decodedAnnotsOf (i + 1) rest

/-- The decoded image of a domain playlist-item list: positional `item_i`
identifiers, order preserved, local blob URLs blanked. -/
def decodedItemsOf : Nat → List PlaylistItem → List DecPlaylistItem
  | _, [] => []
  | i, it :: rest =>
      ⟨"item_" ++ toString i, .jstr it.videoId,
        .jstr (if optBoolTruthy it.isLocalFile then "" else it.url),
        .jstr it.title,
        (if optBoolTruthy it.isLocalFile then .jbool true else .jundefined),
        (if optBoolTruthy it.isLocalFile then
          (match it.localFileName with
           | some f => .jstr f
           | none => .jundefined)
         else .jundefined)⟩ :: decodedItemsOf (i + 1) rest

/-- The decoded image of a domain ambient-sound list: identifiers embed
the decode-time clock value. -/
def decodedAmbientOf (now : Nat) : Nat → List AmbientSound → List DecAmbientSound
  | _, [] => []
  | i, s :: rest =>
      ⟨"ambient_" ++ toString now ++ "_" ++ toString i, .jstr s.videoId,
        .jstr s.title⟩ :: decodedAmbientOf now (i + 1) rest

/-- The reconstructed playlist object produced by a successful decode of
an encoder-built payload. -/
def decodedPlaylistOf (now : Nat) (p : Playlist) : DecPlaylist :=
  { id := "shared_" ++ toString now, name := .jstr p.name,
    items := decodedItemsOf 0 p.items, createdAt := (now : ℚ),
    loop := .jbool p.loop,
    startRandom := if optBoolTruthy p.startRandom then .jbool true else .jundefined,
    randomTime := if optBoolTruthy p.randomTime then .jbool true else .jundefined }

/-- The value read back for the `as` key of an encoder-built playlist
payload: present exactly for a non-empty ambient library. -/
def ambWire : Option (List AmbientSound) → JVal
  | some l => if 0 < l.length then .jarr (l.map ambientToWire) else .jundefined
  | none => .jundefined

/-- The state reached by the ambient-import block of the playlist decode:
a non-empty decoded ambient list replaces the library wholesale and starts
ambient playback; otherwise the state is untouched. -/
def ambientImport (now : Nat) (amb : Option (List AmbientSound))
    (st : SessionState) : SessionState :=
  match amb with
  | some (s :: rest) =>
      { st with
        appData := { st.appData with
          ambientSounds := some (decodedAmbientOf now 0 (s :: rest)) },
        ambientVideoId := .jstr s.videoId, currentAmbientId := .jstr s.videoId,
        ambientVideoTitle := .jstr s.title, ambientPlaying := true }
  | _ => st

/-- Key presence on a wire object (distinguishes an absent key from one
bound to a JSON value). -/
def lookupKey (w : JVal) (k : String) : Option JVal :=
  match w with
  | .jobj fs => fs.lookup k
  | _ => none

/-- Timestamp projection of a decoded annotation (numeric wire values). -/
def tsOf (a : DecAnnot) : ℚ :=
  match a.timestamp with
  | .jnum q => q
  | _ => 0

/-- The component state at mount time (the `useState` initial values),
which is the state both decode effects run against. -/
def baseState : SessionState :=
  { generalNotes := .jstr "", annotations := [], videoId := .jnull,
    videoUrl := .jstr "", localVideoUrl := none, localVideoName := .jstr "",
    videoTitle := "", currentVideo := none, localVideosToLink := [],
    currentLinkingVideo := none, showImportModal := false,
    activePlaylist := none, playlistIndex := 0, isPlaylistMode := false,
    sidebarTab := "library",
    appData := { folders := [], videos := [], playlists := [],
                 ambientSounds := none },
    ambientVideoId := .jundefined, currentAmbientId := .jundefined,
    ambientVideoTitle := .jundefined, ambientPlaying := false }

/-! ### Alphabet facts -/

theorem b64Char_mem (n : Nat) : b64Char n ∈ b64Chars := by
  have h : n % 64 < 64 := Nat.mod_lt _ (by decide)
  have : ∀ m, m < 64 → b64Chars.getD m 'A' ∈ b64Chars := by decide
  exact this (n % 64) h

theorem b64Idx_b64Char (n : Nat) (h : n < 64) : b64Idx (b64Char n) = some n := by
  have : ∀ m, m < 64 → b64Idx (b64Char m) = some m := by decide
  exact this n h

theorem b64Char_ne_eq (n : Nat) : b64Char n ≠ '=' := by
  have h : n % 64 < 64 := Nat.mod_lt _ (by decide)
  have : ∀ m, m < 64 → b64Chars.getD m 'A' ≠ '=' := by decide
  exact this (n % 64) h

theorem mem_b64_from_url (c : Char) (h : c ∈ b64Chars) :
    fromUrlSafeChar (urlSafeChar c) = c := by
  have : ∀ d ∈ b64Chars, fromUrlSafeChar (urlSafeChar d) = d := by decide
  exact this c h

theorem mem_b64_ne_eq (c : Char) (h : c ∈ b64Chars) : urlSafeChar c ≠ '=' := by
  have : ∀ d ∈ b64Chars, urlSafeChar d ≠ '=' := by decide
  exact this c h

/-! ### Remap round trip -/

theorem dropWhile_replicate_append (k : Nat) (l : List Char) :
    (List.replicate k '=' ++ l).dropWhile (fun c => c = '=') =
      l.dropWhile (fun c => c = '=') := by
  induction k with
  | zero => simp
  | succ k ih => simp [List.replicate_succ, ih]

theorem dropWhile_eq_self_of_ne (l : List Char)
    (h : ∀ c ∈ l, c ≠ '=') : l.dropWhile (fun c => c = '=') = l := by
  cases l with
  | nil => rfl
  | cons a l =>
      have ha : a ≠ '=' := h a (by simp)
      simp [List.dropWhile, ha]

/-- Stripping trailing padding from a padded alphabet string returns the
unpadded core. -/
theorem stripTrailingEq_core (core : List Char) (k : Nat)
    (h : ∀ c ∈ core, c ≠ '=') :
    stripTrailingEq (core ++ List.replicate k '=') = core := by
  unfold stripTrailingEq
  rw [List.reverse_append, List.reverse_replicate, dropWhile_replicate_append]
  rw [dropWhile_eq_self_of_ne]
  · exact List.reverse_reverse core
  · intro c hc
    exact h c (List.mem_reverse.mp hc)

/-- Generic reversibility of the URL-safe remap on a padded alphabet string. -/
theorem remap_roundtrip_generic (core : List Char) (k : Nat)
    (hmem : ∀ c ∈ core, c ∈ b64Chars) (hk : k ≤ 3)
    (hlen : (core.length + k) % 4 = 0) :
    decodeRemapL (makeUrlSafe (core ++ List.replicate k '=')) =
      core ++ List.replicate k '=' := by
  have hmap : (core ++ List.replicate k '=').map urlSafeChar =
      core.map urlSafeChar ++ List.replicate k '=' := by
    simp [List.map_append, List.map_replicate, urlSafeChar]
  have hne : ∀ c ∈ core.map urlSafeChar, c ≠ '=' := by
    intro c hc
    rcases List.mem_map.mp hc with ⟨d, hd, rfl⟩
    exact mem_b64_ne_eq d (hmem d hd)
  have hstrip : makeUrlSafe (core ++ List.replicate k '=') =
      core.map urlSafeChar := by
    unfold makeUrlSafe
    rw [hmap]
    exact stripTrailingEq_core _ k hne
  have hback : (core.map urlSafeChar).map fromUrlSafeChar = core := by
    rw [List.map_map]
    have : ∀ c ∈ core, (fromUrlSafeChar ∘ urlSafeChar) c = c := by
      intro c hc
      exact mem_b64_from_url c (hmem c hc)
    calc core.map (fromUrlSafeChar ∘ urlSafeChar) = core.map id :=
          List.map_congr_left this
      _ = core := List.map_id core
  have hpad : (4 - core.length % 4) % 4 = k := by omega
  unfold decodeRemapL rePad
  rw [hstrip, hback, hpad]

/-- The URL-safe remap then its reverse restore any `btoa` output exactly. -/
theorem remap_roundtrip_btoa (bs : List Nat) :
    decodeRemapL (makeUrlSafe (btoaL bs)) = btoaL bs := by
  suffices h : ∃ core k, btoaL bs = core ++ List.replicate k '=' ∧
      (∀ c ∈ core, c ∈ b64Chars) ∧ k ≤ 3 ∧ (core.length + k) % 4 = 0 by
    rcases h with ⟨core, k, heq, hmem, hk, hlen⟩
    rw [heq]
    exact remap_roundtrip_generic core k hmem hk hlen
  induction bs using btoaL.induct with
  | case1 =>
      exact ⟨[], 0, rfl, by simp, by omega, by decide⟩
  | case2 b1 =>
      refine ⟨[b64Char (b1 / 4), b64Char (b1 % 4 * 16)], 2, rfl, ?_, by omega, by simp⟩
      intro c hc
      simp only [List.mem_cons, List.not_mem_nil, or_false] at hc
      rcases hc with rfl | rfl <;> exact b64Char_mem _
  | case3 b1 b2 =>
      refine ⟨[b64Char (b1 / 4), b64Char (b1 % 4 * 16 + b2 / 16),
        b64Char (b2 % 16 * 4)], 1, rfl, ?_, by omega, by simp⟩
      intro c hc
      simp only [List.mem_cons, List.not_mem_nil, or_false] at hc
      rcases hc with rfl | rfl | rfl <;> exact b64Char_mem _
  | case4 b1 b2 b3 rest ih =>
      rcases ih with ⟨core, k, heq, hmem, hk, hlen⟩
      refine ⟨b64Char (b1 / 4) :: b64Char (b1 % 4 * 16 + b2 / 16) ::
        b64Char (b2 % 16 * 4 + b3 / 64) :: b64Char (b3 % 64) :: core, k, ?_, ?_, hk, ?_⟩
      · simp [btoaL, heq]
      · intro c hc
        simp only [List.mem_cons] at hc
        rcases hc with rfl | rfl | rfl | rfl | hc
        · exact b64Char_mem _
        · exact b64Char_mem _
        · exact b64Char_mem _
        · exact b64Char_mem _
        · exact hmem c hc
      · simp only [List.length_cons]
        omega

/-- Base64 round trip: `atob` inverts `btoa` on genuine byte lists. -/
theorem atobL_btoaL : ∀ bs : List Nat, (∀ b ∈ bs, b < 256) →
    atobL (btoaL bs) = some bs
  | [], _ => by simp [btoaL, atobL]
  | [b1], h => by
      have hb1 : b1 < 256 := h b1 (by simp)
      have h1 : b1 / 4 < 64 := by omega
      have h2 : b1 % 4 * 16 < 64 := by omega
      simp [btoaL, atobL, b64Idx_b64Char _ h1, b64Idx_b64Char _ h2]
      omega
  | [b1, b2], h => by
      have hb1 : b1 < 256 := h b1 (by simp)
      have hb2 : b2 < 256 := h b2 (by simp)
      have h1 : b1 / 4 < 64 := by omega
      have h2 : b1 % 4 * 16 + b2 / 16 < 64 := by omega
      have h3 : b2 % 16 * 4 < 64 := by omega
      have hne : b64Char (b2 % 16 * 4) ≠ '=' := b64Char_ne_eq _
      simp [btoaL, atobL, b64Idx_b64Char _ h1, b64Idx_b64Char _ h2,
        b64Idx_b64Char _ h3, hne]
      omega
  | b1 :: b2 :: b3 :: rest, h => by
      have hb1 : b1 < 256 := h b1 (by simp)
      have hb2 : b2 < 256 := h b2 (by simp)
      have hb3 : b3 < 256 := h b3 (by simp)
      have hrest : ∀ b ∈ rest, b < 256 := by
        intro b hb
        exact h b (by simp [hb])
      have h1 : b1 / 4 < 64 := by omega
      have h2 : b1 % 4 * 16 + b2 / 16 < 64 := by omega
      have h3 : b2 % 16 * 4 + b3 / 64 < 64 := by omega
      have h4 : b3 % 64 < 64 := by omega
      have hne3 : b64Char (b2 % 16 * 4 + b3 / 64) ≠ '=' := b64Char_ne_eq _
      have hne4 : b64Char (b3 % 64) ≠ '=' := b64Char_ne_eq _
      have ih := atobL_btoaL rest hrest
      simp [btoaL, atobL, b64Idx_b64Char _ h1, b64Idx_b64Char _ h2,
        b64Idx_b64Char _ h3, b64Idx_b64Char _ h4, hne3, hne4, ih]
      omega

/-- The composed wire transport round trip: remap reversal feeds `atob`
exactly the `btoa` output, which decodes to the original bytes. -/
theorem transport_roundtrip (bs : List Nat) (h : ∀ b ∈ bs, b < 256) :
    atobL (decodeRemapL (makeUrlSafe (btoaL bs))) = some bs := by
  rw [remap_roundtrip_btoa]
  exact atobL_btoaL bs h


/-! ### Decode of encoder-produced video payloads -/

theorem wire_g (S : ShareState) :
    getField (compactShareData S) "g" = some (.jstr S.generalNotes) := rfl

theorem wire_a (S : ShareState) :
    getField (compactShareData S) "a" = some (.jarr (S.annotations.map annToWire)) := rfl

theorem wire_v (S : ShareState) :
    getField (compactShareData S) "v" = some (.jstr (S.videoId.getD "")) := rfl

theorem wire_t (S : ShareState) :
    getField (compactShareData S) "t" =
      some (.jstr (if S.localVideoName = "" then "Shared Video" else S.localVideoName)) := rfl

theorem wire_l (S : ShareState) :
    getField (compactShareData S) "l" =
      some (if optStrTruthy S.localVideoUrl then .jbool true else .jundefined) := by
  cases h : optStrTruthy S.localVideoUrl <;>
    simp [compactShareData, getField, h, List.lookup]

theorem decodeStages_encode (deflate : String → List Nat) (stringify : JVal → String)
    (inflate : List Nat → Option String) (parseJson : String → Option JVal) (w : JVal)
    (hb : ∀ b ∈ deflate (stringify w), b < 256)
    (hinf : inflate (deflate (stringify w)) = some (stringify w))
    (hpar : parseJson (stringify w) = some w) :
    decodeStages inflate parseJson (String.mk (encodePayload deflate stringify w)) = some w := by
  have h1 : (String.mk (encodePayload deflate stringify w)).toList
      = makeUrlSafe (btoaL (deflate (stringify w))) := rfl
  simp [decodeStages, h1, encodePayload, transport_roundtrip _ hb, hinf, hpar]

theorem decAnnotsFrom_map (l : List Annot) : ∀ i,
    decAnnotsFrom i (l.map annToWire) = some (decodedAnnotsOf i l) := by
  induction l with
  | nil => intro i; rfl
  | cons a rest ih =>
      intro i
      have ht : getField (annToWire a) "t" = some (.jnum a.timestamp) := rfl
      have hn : getField (annToWire a) "n" = some (.jstr a.title) := rfl
      have hd : getField (annToWire a) "d" = some (descWire a.description) := by
        rcases hdesc : a.description with _ | d
        · simp [annToWire, getField, descWire, hdesc, List.lookup]
        · by_cases hdd : d = "" <;>
            simp [annToWire, getField, descWire, hdesc, hdd, List.lookup]
      simp [List.map_cons, decAnnotsFrom, decodedAnnotsOf, ht, hn, hd, ih]

theorem decodeSharedData_encode (deflate : String → List Nat) (stringify : JVal → String)
    (inflate : List Nat → Option String) (parseJson : String → Option JVal)
    (now : Nat) (S : ShareState) (st : SessionState)
    (hb : ∀ b ∈ deflate (stringify (compactShareData S)), b < 256)
    (hinf : inflate (deflate (stringify (compactShareData S))) =
      some (stringify (compactShareData S)))
    (hpar : parseJson (stringify (compactShareData S)) = some (compactShareData S)) :
    decodeSharedData inflate parseJson now
        (String.mk (encodePayload deflate stringify (compactShareData S))) st =
      (if optStrTruthy S.localVideoUrl then
        { st with
          generalNotes := .jstr S.generalNotes,
          annotations := decodedAnnotsOf 0 S.annotations,
          localVideoName := .jstr (if S.localVideoName = "" then "Shared Video" else S.localVideoName),
          videoId := .jnull, videoUrl := .jstr "", localVideoUrl := none,
          localVideosToLink := [⟨"shared_" ++ toString now, "",
            .jstr (if S.localVideoName = "" then "Shared Video" else S.localVideoName), "",
            .jstr S.generalNotes, decodedAnnotsOf 0 S.annotations, (now : ℚ), true,
            .jstr (if S.localVideoName = "" then "Shared Video" else S.localVideoName)⟩],
          currentLinkingVideo := some ⟨"shared_" ++ toString now, "",
            .jstr (if S.localVideoName = "" then "Shared Video" else S.localVideoName), "",
            .jstr S.generalNotes, decodedAnnotsOf 0 S.annotations, (now : ℚ), true,
            .jstr (if S.localVideoName = "" then "Shared Video" else S.localVideoName)⟩,
          showImportModal := true }
      else
        { st with
          generalNotes := .jstr S.generalNotes,
          annotations := decodedAnnotsOf 0 S.annotations,
          videoId := .jstr (S.videoId.getD ""),
          videoUrl := .jstr ("https://youtube.com/watch?v=" ++ S.videoId.getD ""),
          localVideoUrl := none, localVideoName := .jstr "" }, true) := by
  have hst := decodeStages_encode deflate stringify inflate parseJson (compactShareData S) hb hinf hpar
  have ha : (getField (compactShareData S) "a").bind asArray =
      some (S.annotations.map annToWire) := by
    rw [wire_a S]; rfl
  simp only [decodeSharedData, hst, wire_g, ha, decAnnotsFrom_map, wire_l, wire_t, wire_v]
  cases h : optStrTruthy S.localVideoUrl <;> simp [h, JVal.truthy, jvalToString]

/-! ### Decode of encoder-produced playlist payloads -/

theorem pwire_n (p : Playlist) (amb : Option (List AmbientSound)) :
    getField (compactPlaylistData p amb) "n" = some (.jstr p.name) := rfl

theorem pwire_i (p : Playlist) (amb : Option (List AmbientSound)) :
    getField (compactPlaylistData p amb) "i" =
      some (.jarr (p.items.map itemToWire)) := rfl

theorem pwire_lp (p : Playlist) (amb : Option (List AmbientSound)) :
    getField (compactPlaylistData p amb) "lp" = some (.jbool p.loop) := rfl

theorem pwire_sr (p : Playlist) (amb : Option (List AmbientSound)) :
    getField (compactPlaylistData p amb) "sr" =
      some (if optBoolTruthy p.startRandom then .jbool true else .jundefined) := by
  by_cases hsr : optBoolTruthy p.startRandom <;>
    by_cases hrt : optBoolTruthy p.randomTime <;>
    rcases amb with _ | l <;>
    simp [compactPlaylistData, getField, hsr, hrt, List.lookup] <;>
    by_cases hl : 0 < l.length <;> simp [hl, List.lookup]

theorem pwire_rt (p : Playlist) (amb : Option (List AmbientSound)) :
    getField (compactPlaylistData p amb) "rt" =
      some (if optBoolTruthy p.randomTime then .jbool true else .jundefined) := by
  by_cases hsr : optBoolTruthy p.startRandom <;>
    by_cases hrt : optBoolTruthy p.randomTime <;>
    rcases amb with _ | l <;>
    simp [compactPlaylistData, getField, hsr, hrt, List.lookup] <;>
    by_cases hl : 0 < l.length <;> simp [hl, List.lookup]

theorem pwire_as (p : Playlist) (amb : Option (List AmbientSound)) :
    getField (compactPlaylistData p amb) "as" = some (ambWire amb) := by
  by_cases hsr : optBoolTruthy p.startRandom <;>
    by_cases hrt : optBoolTruthy p.randomTime <;>
    rcases amb with _ | l <;>
    simp [compactPlaylistData, getField, ambWire, hsr, hrt, List.lookup] <;>
    by_cases hl : 0 < l.length <;> simp [hl, List.lookup]

theorem pwire_sr_absent (p : Playlist) (amb : Option (List AmbientSound))
    (h : optBoolTruthy p.startRandom = false) :
    lookupKey (compactPlaylistData p amb) "sr" = none := by
  rcases amb with _ | l
  · by_cases hrt : optBoolTruthy p.randomTime <;>
      simp [compactPlaylistData, lookupKey, h, hrt, List.lookup]
  · by_cases hrt : optBoolTruthy p.randomTime <;>
      by_cases hl : 0 < l.length <;>
      simp [compactPlaylistData, lookupKey, h, hrt, hl, List.lookup]

theorem decItemsFrom_map (l : List PlaylistItem) : ∀ i,
    decItemsFrom i (l.map itemToWire) = some (decodedItemsOf i l) := by
  induction l with
  | nil => intro i; rfl
  | cons it rest ih =>
      intro i
      have hv : getField (itemToWire it) "v" = some (.jstr it.videoId) := rfl
      have hu : getField (itemToWire it) "u" =
        some (.jstr (if optBoolTruthy it.isLocalFile then "" else it.url)) := rfl
      have ht : getField (itemToWire it) "t" = some (.jstr it.title) := rfl
      have hl : getField (itemToWire it) "l" =
          some (if optBoolTruthy it.isLocalFile then .jbool true else .jundefined) := by
        by_cases h : optBoolTruthy it.isLocalFile <;>
          rcases hf : it.localFileName with _ | f <;>
          simp [itemToWire, getField, h, hf, List.lookup]
      have hfl : getField (itemToWire it) "f" =
          some (if optBoolTruthy it.isLocalFile then
            (match it.localFileName with
             | some f => JVal.jstr f
             | none => JVal.jundefined)
           else .jundefined) := by
        by_cases h : optBoolTruthy it.isLocalFile <;>
          rcases hf : it.localFileName with _ | f <;>
          simp [itemToWire, getField, h, hf, List.lookup]
      simp [List.map_cons, decItemsFrom, decodedItemsOf, hv, hu, ht, hl, hfl, ih]

theorem decAmbientFrom_map (now : Nat) (l : List AmbientSound) : ∀ i,
    decAmbientFrom now i (l.map ambientToWire) = some (decodedAmbientOf now i l) := by
  induction l with
  | nil => intro i; rfl
  | cons s rest ih =>
      intro i
      have hv : getField (ambientToWire s) "v" = some (.jstr s.videoId) := rfl
      have ht : getField (ambientToWire s) "t" = some (.jstr s.title) := rfl
      simp [List.map_cons, decAmbientFrom, decodedAmbientOf, hv, ht, ih]

theorem decodeSharedPlaylist_encode (deflate : String → List Nat)
    (stringify : JVal → String) (inflate : List Nat → Option String)
    (parseJson : String → Option JVal) (now rand : Nat) (p : Playlist)
    (amb : Option (List AmbientSound)) (st : SessionState)
    (hb : ∀ b ∈ deflate (stringify (compactPlaylistData p amb)), b < 256)
    (hinf : inflate (deflate (stringify (compactPlaylistData p amb))) =
      some (stringify (compactPlaylistData p amb)))
    (hpar : parseJson (stringify (compactPlaylistData p amb)) =
      some (compactPlaylistData p amb)) :
    decodeSharedPlaylist inflate parseJson now rand
        (String.mk (encodePayload deflate stringify (compactPlaylistData p amb))) st =
      startPlaylist rand (decodedPlaylistOf now p) (ambientImport now amb st) := by
  have hst := decodeStages_encode deflate stringify inflate parseJson
    (compactPlaylistData p amb) hb hinf hpar
  have hi : (getField (compactPlaylistData p amb) "i").bind asArray =
      some (p.items.map itemToWire) := by
    rw [pwire_i]; rfl
  simp only [decodeSharedPlaylist, hst, pwire_n, pwire_lp, pwire_sr, pwire_rt,
    pwire_as, hi, decItemsFrom_map]
  rcases amb with _ | l
  · simp [ambWire, ambientImport, JVal.truthy, decodedPlaylistOf]
  · rcases l with _ | ⟨s, rest⟩
    · simp [ambWire, ambientImport, JVal.truthy, decodedPlaylistOf]
    · have hamb := decAmbientFrom_map now (s :: rest) 0
      simp only [List.map_cons] at hamb
      simp [ambWire, ambientImport, JVal.truthy, jsLength, asArray, hamb,
        decodedPlaylistOf, decodedAmbientOf]


/-! ## Claim theorems -/

/-- C8: URL-safe remap reversibility.  For every base64 string produced by
the binary-to-text encoding step (`btoa`), applying the URL-safe remap
(replace `+` with `-`, `/` with `_`, strip trailing `=` padding) and then
the decode-side reverse remap (restore `+` and `/`, re-append padding to a
multiple of 4) yields exactly the original base64 string. -/
theorem C8_urlsafe_remap_reversible (bs : List Nat) :
    decodeRemapL (makeUrlSafe (btoaL bs)) = btoaL bs :=
  remap_roundtrip_btoa bs

/-- C9: for every video share of a non-local (streaming) video — a state
with no local blob URL and an empty local file name — the encoded wire
payload's title field `t` equals the constant string `Shared Video`,
regardless of the session's actual title (the compact payload does not
depend on `videoTitle` at all); the in-memory title enters the payload
only for a local-file session, taken from the local file name. -/
theorem C9_streaming_title_constant (S : ShareState) (title2 : String)
    (hstream : S.localVideoUrl = none) (hname : S.localVideoName = "") :
    getField (compactShareData S) "t" = some (.jstr "Shared Video") ∧
    compactShareData { S with videoTitle := title2 } = compactShareData S ∧
    (∀ n u, n ≠ "" →
      getField (compactShareData { S with
        localVideoUrl := some u,
        localVideoName := n }) "t" = some (.jstr n)) := by
  refine ⟨?_, rfl, ?_⟩
  · rw [wire_t S, hname]
    simp
  · intro n u hn
    rw [wire_t]
    simp [hn]

/-- C9 witness: a concrete streaming session with title `Demo` encodes
with the constant wire title. -/
theorem C9_witness :
    getField (compactShareData ⟨some "abc12345678", none, "", "Demo", "", []⟩) "t"
      = some (.jstr "Shared Video") ∧
    compactShareData { (⟨some "abc12345678", none, "", "Demo", "", []⟩ : ShareState) with
        videoTitle := "Other" } =
      compactShareData ⟨some "abc12345678", none, "", "Demo", "", []⟩ ∧
    (∀ n u, n ≠ "" →
      getField (compactShareData { (⟨some "abc12345678", none, "", "Demo", "", []⟩ : ShareState) with
          localVideoUrl := some u, localVideoName := n }) "t" = some (.jstr n)) :=
  C9_streaming_title_constant ⟨some "abc12345678", none, "", "Demo", "", []⟩ "Other" rfl rfl

/-- C5: local-file non-leak.  For every playlist containing an entry with
`isLocalFile` true, the encoded wire payload does not depend on that
entry's `sourceUrl` (so no URL is recoverable from it): the wire object is
identical for any two values of the URL, the entry's `u` field is the
empty string, and `originalFileName` is retained under the `f` key as a
relinking hint. -/
theorem C5_local_file_nonleak (p : Playlist) (pre post : List PlaylistItem)
    (it : PlaylistItem) (u1 u2 : String) (amb : Option (List AmbientSound))
    (hloc : optBoolTruthy it.isLocalFile = true) :
    compactPlaylistData { p with items := pre ++ ({ it with url := u1 }) :: post } amb =
      compactPlaylistData { p with items := pre ++ ({ it with url := u2 }) :: post } amb ∧
    getField (itemToWire it) "u" = some (.jstr "") ∧
    (∀ f, it.localFileName = some f → getField (itemToWire it) "f" = some (.jstr f)) := by
  refine ⟨?_, ?_, ?_⟩
  · have h : ∀ u, itemToWire { it with url := u } = itemToWire it := by
      intro u
      simp [itemToWire, hloc]
    simp [compactPlaylistData, List.map_append, h]
  · have : getField (itemToWire it) "u" =
        some (.jstr (if optBoolTruthy it.isLocalFile then "" else it.url)) := rfl
    rw [this, hloc]
    simp
  · intro f hf
    simp [itemToWire, getField, hloc, hf, List.lookup]

/-- C5 witness: a concrete two-item playlist whose second entry is a local
file with a blob URL. -/
theorem C5_witness :
    compactPlaylistData { (⟨"p1", "Mix", [], 0, true, none, none⟩ : Playlist) with
        items := [⟨"i1", "v1", "http://a", "T1", none, none⟩] ++
          ({ (⟨"i2", "", "", "T2", some true, some "file.mp4"⟩ : PlaylistItem) with
            url := "blob:one" }) :: [] } none =
      compactPlaylistData { (⟨"p1", "Mix", [], 0, true, none, none⟩ : Playlist) with
        items := [⟨"i1", "v1", "http://a", "T1", none, none⟩] ++
          ({ (⟨"i2", "", "", "T2", some true, some "file.mp4"⟩ : PlaylistItem) with
            url := "blob:two" }) :: [] } none ∧
    getField (itemToWire ⟨"i2", "", "", "T2", some true, some "file.mp4"⟩) "u" =
      some (.jstr "") ∧
    (∀ f, (⟨"i2", "", "", "T2", some true, some "file.mp4"⟩ : PlaylistItem).localFileName
        = some f →
      getField (itemToWire ⟨"i2", "", "", "T2", some true, some "file.mp4"⟩) "f" =
        some (.jstr f)) :=
  C5_local_file_nonleak ⟨"p1", "Mix", [], 0, true, none, none⟩
    [⟨"i1", "v1", "http://a", "T1", none, none⟩] []
    ⟨"i2", "", "", "T2", some true, some "file.mp4"⟩ "blob:one" "blob:two" none rfl



/-- Reduction of `handleShare` past its guard. -/
theorem handleShare_eq (deflate : String → List Nat) (stringify : JVal → String)
    (origin pathname : String) (S : ShareState)
    (hg : (!optStrTruthy S.videoId && !optStrTruthy S.localVideoUrl) = false) :
    handleShare deflate stringify origin pathname S =
      if (origin ++ pathname ++ "?d=" ++
          String.mk (encodePayload deflate stringify (compactShareData S))).length > 8000
      then .tooLong (origin ++ pathname ++ "?d=" ++
        String.mk (encodePayload deflate stringify (compactShareData S))).length
      else .shared (origin ++ pathname ++ "?d=" ++
        String.mk (encodePayload deflate stringify (compactShareData S))) := by
  unfold handleShare
  rw [hg]
  rfl

/-- Reduction of `handleShare` when no video is loaded. -/
theorem handleShare_noVideo (deflate : String → List Nat) (stringify : JVal → String)
    (origin pathname : String) (S : ShareState)
    (hg : (!optStrTruthy S.videoId && !optStrTruthy S.localVideoUrl) = true) :
    handleShare deflate stringify origin pathname S = .noVideo := by
  unfold handleShare
  rw [hg]
  rfl

/-- Reduction of `handleSharePlaylist` past its guard. -/
theorem handleSharePlaylist_eq (deflate : String → List Nat) (stringify : JVal → String)
    (origin pathname : String) (p : Playlist) (amb : Option (List AmbientSound))
    (hp : p.items.length ≠ 0) :
    handleSharePlaylist deflate stringify origin pathname p amb =
      if (origin ++ pathname ++ "?p=" ++
          String.mk (encodePayload deflate stringify (compactPlaylistData p amb))).length > 8000
      then .tooLong (origin ++ pathname ++ "?p=" ++
        String.mk (encodePayload deflate stringify (compactPlaylistData p amb))).length
      else .shared (origin ++ pathname ++ "?p=" ++
        String.mk (encodePayload deflate stringify (compactPlaylistData p amb))) := by
  unfold handleSharePlaylist
  rw [if_neg hp]

/-- C4: size boundary.  For every session (video or playlist) loaded for
sharing whose encoded form embedded in the target URL template exceeds
8,000 characters, the share handler fails with a size-exceeded result and
transmits nothing; and whenever a handler does transmit, the transmitted
URL embeds the complete encoded payload — the codec never truncates. -/
theorem C4_size_boundary (deflate : String → List Nat) (stringify : JVal → String)
    (origin pathname : String) (S : ShareState) (p : Playlist)
    (amb : Option (List AmbientSound))
    (hvid : (optStrTruthy S.videoId || optStrTruthy S.localVideoUrl) = true)
    (hlen : (origin ++ pathname ++ "?d=" ++
      String.mk (encodePayload deflate stringify (compactShareData S))).length > 8000)
    (hp : p.items.length ≠ 0)
    (hplen : (origin ++ pathname ++ "?p=" ++
      String.mk (encodePayload deflate stringify (compactPlaylistData p amb))).length > 8000) :
    handleShare deflate stringify origin pathname S =
      .tooLong (origin ++ pathname ++ "?d=" ++
        String.mk (encodePayload deflate stringify (compactShareData S))).length ∧
    handleSharePlaylist deflate stringify origin pathname p amb =
      .tooLong (origin ++ pathname ++ "?p=" ++
        String.mk (encodePayload deflate stringify (compactPlaylistData p amb))).length ∧
    (∀ S' u, handleShare deflate stringify origin pathname S' = .shared u →
      u = origin ++ pathname ++ "?d=" ++
        String.mk (encodePayload deflate stringify (compactShareData S'))) ∧
    (∀ p' amb' u, handleSharePlaylist deflate stringify origin pathname p' amb' = .shared u →
      u = origin ++ pathname ++ "?p=" ++
        String.mk (encodePayload deflate stringify (compactPlaylistData p' amb'))) := by
  have hg : (!optStrTruthy S.videoId && !optStrTruthy S.localVideoUrl) = false := by
    cases h1 : optStrTruthy S.videoId <;> cases h2 : optStrTruthy S.localVideoUrl <;>
      simp_all
  refine ⟨?_, ?_, ?_, ?_⟩
  · rw [handleShare_eq deflate stringify origin pathname S hg, if_pos hlen]
  · rw [handleSharePlaylist_eq deflate stringify origin pathname p amb hp, if_pos hplen]
  · intro S' u h
    by_cases hg' : (!optStrTruthy S'.videoId && !optStrTruthy S'.localVideoUrl) = true
    · rw [handleShare_noVideo deflate stringify origin pathname S' hg'] at h
      exact absurd h (by simp)
    · rw [handleShare_eq deflate stringify origin pathname S'
        (Bool.not_eq_true _ ▸ Bool.of_not_eq_true hg')] at h
      split at h
      · exact absurd h (by simp)
      · injection h with h2
        exact h2.symm
  · intro p' amb' u h
    by_cases hp' : p'.items.length = 0
    · unfold handleSharePlaylist at h
      rw [if_pos hp'] at h
      exact absurd h (by simp)
    · rw [handleSharePlaylist_eq deflate stringify origin pathname p' amb' hp'] at h
      split at h
      · exact absurd h (by simp)
      · injection h with h2
        exact h2.symm


/-- C4 witness: with a URL template already 8,001 characters long, both
share handlers reject with the size-exceeded result. -/
theorem C4_witness :
    handleShare (fun _ => []) (fun _ => "J") (String.mk (List.replicate 8001 'x')) ""
        ⟨some "v", none, "", "", "", []⟩ =
      .tooLong (String.mk (List.replicate 8001 'x') ++ "" ++ "?d=" ++
        String.mk (encodePayload (fun _ => []) (fun _ => "J")
          (compactShareData ⟨some "v", none, "", "", "", []⟩))).length ∧
    handleSharePlaylist (fun _ => []) (fun _ => "J") (String.mk (List.replicate 8001 'x')) ""
        ⟨"p", "P", [⟨"i", "v", "u", "T", none, none⟩], 0, false, none, none⟩ none =
      .tooLong (String.mk (List.replicate 8001 'x') ++ "" ++ "?p=" ++
        String.mk (encodePayload (fun _ => []) (fun _ => "J")
          (compactPlaylistData ⟨"p", "P", [⟨"i", "v", "u", "T", none, none⟩], 0, false, none, none⟩ none))).length := by
  have h := C4_size_boundary (fun _ => []) (fun _ => "J")
    (String.mk (List.replicate 8001 'x')) ""
    ⟨some "v", none, "", "", "", []⟩
    ⟨"p", "P", [⟨"i", "v", "u", "T", none, none⟩], 0, false, none, none⟩ none
    (by decide)
    (by
      show (String.mk (List.replicate 8001 'x') ++ "" ++ "?d=" ++
        String.mk []).length > 8000
      show (List.replicate 8001 'x' ++ [] ++ ['?', 'd', '='] ++ []).length > 8000
      rw [List.length_append, List.length_append, List.length_append,
        List.length_replicate, List.length_nil]
      decide)
    (by decide)
    (by
      show (String.mk (List.replicate 8001 'x') ++ "" ++ "?p=" ++
        String.mk []).length > 8000
      show (List.replicate 8001 'x' ++ [] ++ ['?', 'p', '='] ++ []).length > 8000
      rw [List.length_append, List.length_append, List.length_append,
        List.length_replicate, List.length_nil]
      decide)
  exact ⟨h.1, h.2.1⟩


/-- Timestamps of the decoded annotation list are the source timestamps in
the same order. -/
theorem tsOf_decodedAnnotsOf (l : List Annot) : ∀ i,
    (decodedAnnotsOf i l).map tsOf = l.map Annot.timestamp := by
  induction l with
  | nil => intro i; rfl
  | cons a rest ih =>
      intro i
      simp [decodedAnnotsOf, tsOf, ih]

/-- C1 (amended): decoding an encoded video share restores the notes, the
markers (in wire order, hence also as sorted-by-time sequences) with
positional `shared_i` identifiers and empty descriptions identified with
absent ones, and the local-file flag (surfaced as the pending-relink
prompt of the import modal).  The title, however, round-trips only for a local-file
session with a nonempty file name; a streaming share carries the constant
wire title `Shared Video` and its decode restores no title. -/
theorem C1_video_roundtrip (deflate : String → List Nat) (stringify : JVal → String)
    (inflate : List Nat → Option String) (parseJson : String → Option JVal)
    (now : Nat) (S : ShareState)
    (hb : ∀ b ∈ deflate (stringify (compactShareData S)), b < 256)
    (hinf : inflate (deflate (stringify (compactShareData S))) =
      some (stringify (compactShareData S)))
    (hpar : parseJson (stringify (compactShareData S)) = some (compactShareData S))
    (hwf : optStrTruthy S.localVideoUrl = false → S.localVideoName = "") :
    let r := decodeSharedData inflate parseJson now
      (String.mk (encodePayload deflate stringify (compactShareData S))) baseState
    r.2 = true ∧
    r.1.generalNotes = .jstr S.generalNotes ∧
    r.1.annotations = decodedAnnotsOf 0 S.annotations ∧
    r.1.annotations.map tsOf = S.annotations.map Annot.timestamp ∧
    r.1.showImportModal = optStrTruthy S.localVideoUrl ∧
    (optStrTruthy S.localVideoUrl = true → S.localVideoName ≠ "" →
      r.1.localVideoName = .jstr S.localVideoName) ∧
    (optStrTruthy S.localVideoUrl = false →
      r.1.videoId = .jstr (S.videoId.getD "") ∧
      r.1.videoTitle = "" ∧
      getField (compactShareData S) "t" = some (.jstr "Shared Video")) := by
  have hm := decodeSharedData_encode deflate stringify inflate parseJson now S baseState
    hb hinf hpar
  cases h : optStrTruthy S.localVideoUrl
  · have hname := hwf h
    rw [h] at hm
    simp only [Bool.false_eq_true, if_false] at hm
    rw [hm]
    refine ⟨rfl, rfl, rfl, tsOf_decodedAnnotsOf S.annotations 0, rfl, ?_, ?_⟩
    · intro hcontra
      exact absurd hcontra (by decide)
    · intro _
      refine ⟨rfl, rfl, ?_⟩
      rw [wire_t S, hname]
      simp
  · rw [h] at hm
    simp only [if_true] at hm
    rw [hm]
    refine ⟨rfl, rfl, rfl, tsOf_decodedAnnotsOf S.annotations 0, rfl, ?_, ?_⟩
    · intro _ hname
      show JVal.jstr (if S.localVideoName = "" then "Shared Video" else S.localVideoName) =
        JVal.jstr S.localVideoName
      simp [hname]
    · intro hcontra
      exact absurd hcontra (by decide)


/-- C1 counterexample: the claim as stated fails on the title.  A
streaming session titled `Demo` encodes with the constant wire title
`Shared Video`, and the successful decode of that payload restores no
title at all (`videoTitle` and `localVideoName` both stay empty), so the
decoded session's title is not equal to the original's. -/
theorem C1_counterexample :
    getField (compactShareData ⟨some "abc", none, "", "Demo", "notes", []⟩) "t" =
      some (.jstr "Shared Video") ∧
    (decodeSharedData (fun _ => some "J")
      (fun _ => some (compactShareData ⟨some "abc", none, "", "Demo", "notes", []⟩)) 0
      (String.mk (encodePayload (fun _ => [1]) (fun _ => "J")
        (compactShareData ⟨some "abc", none, "", "Demo", "notes", []⟩))) baseState).2
      = true ∧
    (decodeSharedData (fun _ => some "J")
      (fun _ => some (compactShareData ⟨some "abc", none, "", "Demo", "notes", []⟩)) 0
      (String.mk (encodePayload (fun _ => [1]) (fun _ => "J")
        (compactShareData ⟨some "abc", none, "", "Demo", "notes", []⟩))) baseState).1.videoTitle
      = "" ∧
    (decodeSharedData (fun _ => some "J")
      (fun _ => some (compactShareData ⟨some "abc", none, "", "Demo", "notes", []⟩)) 0
      (String.mk (encodePayload (fun _ => [1]) (fun _ => "J")
        (compactShareData ⟨some "abc", none, "", "Demo", "notes", []⟩))) baseState).1.localVideoName
      = .jstr "" ∧
    ("" : String) ≠ "Demo" ∧ ("Shared Video" : String) ≠ "Demo" :=
  ⟨rfl, rfl, rfl, rfl, by decide, by decide⟩

/-- C1 witness: the amended round trip at a concrete streaming session
with one marker, instantiating the external deflate and JSON black boxes
pointwise. -/
theorem C1_witness :
    (decodeSharedData (fun _ => some "J")
      (fun _ => some (compactShareData
        ⟨some "abc12345678", none, "", "Demo", "the notes", [⟨"1", 90, "Goal", none⟩]⟩)) 5
      (String.mk (encodePayload (fun _ => [2]) (fun _ => "J")
        (compactShareData
          ⟨some "abc12345678", none, "", "Demo", "the notes", [⟨"1", 90, "Goal", none⟩]⟩)))
      baseState).2 = true ∧
    (decodeSharedData (fun _ => some "J")
      (fun _ => some (compactShareData
        ⟨some "abc12345678", none, "", "Demo", "the notes", [⟨"1", 90, "Goal", none⟩]⟩)) 5
      (String.mk (encodePayload (fun _ => [2]) (fun _ => "J")
        (compactShareData
          ⟨some "abc12345678", none, "", "Demo", "the notes", [⟨"1", 90, "Goal", none⟩]⟩)))
      baseState).1.generalNotes = .jstr "the notes" ∧
    (decodeSharedData (fun _ => some "J")
      (fun _ => some (compactShareData
        ⟨some "abc12345678", none, "", "Demo", "the notes", [⟨"1", 90, "Goal", none⟩]⟩)) 5
      (String.mk (encodePayload (fun _ => [2]) (fun _ => "J")
        (compactShareData
          ⟨some "abc12345678", none, "", "Demo", "the notes", [⟨"1", 90, "Goal", none⟩]⟩)))
      baseState).1.annotations = decodedAnnotsOf 0 [⟨"1", 90, "Goal", none⟩] := by
  have h := C1_video_roundtrip (fun _ => [2]) (fun _ => "J") (fun _ => some "J")
    (fun _ => some (compactShareData
      ⟨some "abc12345678", none, "", "Demo", "the notes", [⟨"1", 90, "Goal", none⟩]⟩)) 5
    ⟨some "abc12345678", none, "", "Demo", "the notes", [⟨"1", 90, "Goal", none⟩]⟩
    (by decide) rfl rfl (fun _ => rfl)
  exact ⟨h.1, h.2.1, h.2.2.1⟩


/-- C2 (amended): every decode failure in the string stages — URL-safe
reversal and base64 decode, decompression, JSON parsing — is caught (the
effect never throws into the caller) and leaves the component state
entirely unchanged, for both the video and the playlist decoder.  The
accompanying counterexample shows that the unrestricted claim is false:
a post-parse field-access failure can leave the notes partially updated. -/
theorem C2_stage_failure_atomic (inflate : List Nat → Option String)
    (parseJson : String → Option JVal) (now rand : Nat) (data : String)
    (st : SessionState)
    (h : decodeStages inflate parseJson data = none) :
    decodeSharedData inflate parseJson now data st = (st, false) ∧
    decodeSharedPlaylist inflate parseJson now rand data st = (st, false) := by
  constructor
  · unfold decodeSharedData
    rw [h]
  · unfold decodeSharedPlaylist
    rw [h]

/-- C2 witness: a malformed share string (`!` is outside the base64
alphabet) is rejected by both decoders with the state untouched. -/
theorem C2_witness :
    decodeSharedData (fun _ => none) (fun _ => none) 3 "!" baseState =
      (baseState, false) ∧
    decodeSharedPlaylist (fun _ => none) (fun _ => none) 3 7 "!" baseState =
      (baseState, false) :=
  C2_stage_failure_atomic (fun _ => none) (fun _ => none) 3 7 "!" baseState rfl

/-- C2 counterexample: a payload that decompresses and parses to an object
with a `g` field but no annotation array fails mid-reconstruction (the
`catch` runs, success flag `false`), yet the general notes have already
been overwritten — the decode failure partially populates the state.  The
instantiated black boxes correspond to a deflate stream for the JSON text
holding only the key `g`. -/
theorem C2_counterexample :
    (decodeSharedData (fun _ => some "J")
      (fun _ => some (.jobj [("g", .jstr "hello")])) 0 "AAAA" baseState).2 = false ∧
    (decodeSharedData (fun _ => some "J")
      (fun _ => some (.jobj [("g", .jstr "hello")])) 0 "AAAA" baseState).1.generalNotes
      = .jstr "hello" ∧
    baseState.generalNotes = .jstr "" ∧
    (decodeSharedData (fun _ => some "J")
      (fun _ => some (.jobj [("g", .jstr "hello")])) 0 "AAAA" baseState).1 ≠ baseState := by
  refine ⟨rfl, rfl, rfl, ?_⟩
  intro hcontra
  have hfield := congrArg SessionState.generalNotes hcontra
  have h1 : (decodeSharedData (fun _ => some "J")
      (fun _ => some (.jobj [("g", .jstr "hello")])) 0 "AAAA" baseState).1.generalNotes
      = .jstr "hello" := rfl
  have h2 : baseState.generalNotes = .jstr "" := rfl
  rw [h1, h2] at hfield
  have : ("hello" : String) = "" := by
    injection hfield
  exact absurd this (by decide)

/-- C3 (amended): the decoder preserves the wire order of markers and does
not re-sort; decoded markers are in ascending `timeOffsetSeconds` order
exactly when the encoded session's markers already were — which the
application maintains by sorted insertion.  The counterexample shows an
out-of-order wire payload decoding out of order. -/
theorem C3_marker_order (deflate : String → List Nat) (stringify : JVal → String)
    (inflate : List Nat → Option String) (parseJson : String → Option JVal)
    (now : Nat) (S : ShareState)
    (hb : ∀ b ∈ deflate (stringify (compactShareData S)), b < 256)
    (hinf : inflate (deflate (stringify (compactShareData S))) =
      some (stringify (compactShareData S)))
    (hpar : parseJson (stringify (compactShareData S)) = some (compactShareData S))
    (hsort : List.Chain' (· ≤ ·) (S.annotations.map Annot.timestamp)) :
    let r := decodeSharedData inflate parseJson now
      (String.mk (encodePayload deflate stringify (compactShareData S))) baseState
    r.1.annotations = decodedAnnotsOf 0 S.annotations ∧
    List.Chain' (· ≤ ·) (r.1.annotations.map tsOf) := by
  have hm := decodeSharedData_encode deflate stringify inflate parseJson now S baseState
    hb hinf hpar
  have hann : (decodeSharedData inflate parseJson now
      (String.mk (encodePayload deflate stringify (compactShareData S))) baseState).1.annotations
      = decodedAnnotsOf 0 S.annotations := by
    cases h : optStrTruthy S.localVideoUrl
    · rw [h] at hm
      simp only [Bool.false_eq_true, if_false] at hm
      rw [hm]
    · rw [h] at hm
      simp only [if_true] at hm
      rw [hm]
  refine ⟨hann, ?_⟩
  rw [hann, tsOf_decodedAnnotsOf]
  exact hsort

/-- C3 witness: the amended order property at a concrete session with two
chronologically ordered markers. -/
theorem C3_witness :
    (decodeSharedData (fun _ => some "J")
      (fun _ => some (compactShareData
        ⟨some "v", none, "", "", "", [⟨"1", 10, "a", none⟩, ⟨"2", 20, "b", none⟩]⟩)) 0
      (String.mk (encodePayload (fun _ => [7]) (fun _ => "J")
        (compactShareData
          ⟨some "v", none, "", "", "", [⟨"1", 10, "a", none⟩, ⟨"2", 20, "b", none⟩]⟩)))
      baseState).1.annotations =
      decodedAnnotsOf 0 [⟨"1", 10, "a", none⟩, ⟨"2", 20, "b", none⟩] ∧
    List.Chain' (· ≤ ·)
      ((decodeSharedData (fun _ => some "J")
        (fun _ => some (compactShareData
          ⟨some "v", none, "", "", "", [⟨"1", 10, "a", none⟩, ⟨"2", 20, "b", none⟩]⟩)) 0
        (String.mk (encodePayload (fun _ => [7]) (fun _ => "J")
          (compactShareData
            ⟨some "v", none, "", "", "", [⟨"1", 10, "a", none⟩, ⟨"2", 20, "b", none⟩]⟩)))
        baseState).1.annotations.map tsOf) :=
  C3_marker_order (fun _ => [7]) (fun _ => "J") (fun _ => some "J")
    (fun _ => some (compactShareData
      ⟨some "v", none, "", "", "", [⟨"1", 10, "a", none⟩, ⟨"2", 20, "b", none⟩]⟩)) 0
    ⟨some "v", none, "", "", "", [⟨"1", 10, "a", none⟩, ⟨"2", 20, "b", none⟩]⟩
    (by decide) rfl rfl (by norm_num [List.chain'_cons, List.chain'_singleton])

/-- C3 counterexample: a wire payload carrying markers at seconds 5 then 1
decodes to markers in that same wire order, not ascending order — the
decoder performs no re-sort. -/
theorem C3_counterexample :
    (decodeSharedData (fun _ => some "J")
      (fun _ => some (.jobj [("v", .jstr "x"), ("t", .jstr "T"), ("g", .jstr ""),
        ("a", .jarr [.jobj [("t", .jnum 5), ("n", .jstr "b")],
          .jobj [("t", .jnum 1), ("n", .jstr "a")]])])) 0 "AAAA" baseState).2 = true ∧
    (decodeSharedData (fun _ => some "J")
      (fun _ => some (.jobj [("v", .jstr "x"), ("t", .jstr "T"), ("g", .jstr ""),
        ("a", .jarr [.jobj [("t", .jnum 5), ("n", .jstr "b")],
          .jobj [("t", .jnum 1), ("n", .jstr "a")]])])) 0 "AAAA"
        baseState).1.annotations.map tsOf = [5, 1] ∧
    ¬ List.Chain' (· ≤ ·)
      ((decodeSharedData (fun _ => some "J")
        (fun _ => some (.jobj [("v", .jstr "x"), ("t", .jstr "T"), ("g", .jstr ""),
          ("a", .jarr [.jobj [("t", .jnum 5), ("n", .jstr "b")],
            .jobj [("t", .jnum 1), ("n", .jstr "a")]])])) 0 "AAAA"
          baseState).1.annotations.map tsOf) := by
  refine ⟨rfl, rfl, ?_⟩
  show ¬ List.Chain' (· ≤ ·) [(5 : ℚ), 1]
  norm_num [List.chain'_cons, List.chain'_singleton]


/-- The `rt` key is absent from the wire payload when `randomTime` is falsy. -/
theorem pwire_rt_absent (p : Playlist) (amb : Option (List AmbientSound))
    (h : optBoolTruthy p.randomTime = false) :
    lookupKey (compactPlaylistData p amb) "rt" = none := by
  rcases amb with _ | l
  · by_cases hsr : optBoolTruthy p.startRandom <;>
      simp [compactPlaylistData, lookupKey, h, hsr, List.lookup]
  · by_cases hsr : optBoolTruthy p.startRandom <;>
      by_cases hl : 0 < l.length <;>
      simp [compactPlaylistData, lookupKey, h, hsr, hl, List.lookup]

/-- The `l` key is absent from a video-share payload for a non-local session. -/
theorem wire_l_absent (S : ShareState) (h : optStrTruthy S.localVideoUrl = false) :
    lookupKey (compactShareData S) "l" = none := by
  simp [compactShareData, lookupKey, h, List.lookup]

/-- The playlist-start block never touches the Session Store (`appData`). -/
theorem startPlaylist_appData (rand : Nat) (dp : DecPlaylist) (st : SessionState) :
    (startPlaylist rand dp st).1.appData = st.appData := by
  unfold startPlaylist
  dsimp only
  split <;> rfl

/-- The playlist-start block always completes without an exception. -/
theorem startPlaylist_success (rand : Nat) (dp : DecPlaylist) (st : SessionState) :
    (startPlaylist rand dp st).2 = true := by
  unfold startPlaylist
  dsimp only
  split <;> rfl

/-- Decoding an ambient array preserves its length. -/
theorem decAmbientFrom_length (now : Nat) (l : List JVal) : ∀ i sounds,
    decAmbientFrom now i l = some sounds → sounds.length = l.length := by
  induction l with
  | nil =>
      intro i sounds h
      simp only [decAmbientFrom] at h
      rw [← Option.some_inj.mp h]
      rfl
  | cons s rest ih =>
      intro i sounds h
      simp only [decAmbientFrom] at h
      rcases Option.bind_eq_some.mp h with ⟨v, hv, h⟩
      rcases Option.bind_eq_some.mp h with ⟨t, ht, h⟩
      rcases Option.map_eq_some'.mp h with ⟨tl, htl, rfl⟩
      simp [ih (i + 1) tl htl]


/-- C6 (amended): for a playlist whose `startRandom` is false or absent,
the wire payload carries no `sr` key (likewise `rt`, and the video-share
`l` flag when the session is not a local file); decoding such a payload
reconstructs a playlist whose `startRandom` is the JavaScript `undefined`
— not the value `false` — which every downstream use treats as false via
truthiness.  The counterexample shows the claimed normalization to a
literal `false` does not happen. -/
theorem C6_optional_flag_omission (deflate : String → List Nat)
    (stringify : JVal → String) (inflate : List Nat → Option String)
    (parseJson : String → Option JVal) (now rand : Nat) (p : Playlist)
    (amb : Option (List AmbientSound)) (S : ShareState) (st : SessionState)
    (hsr : optBoolTruthy p.startRandom = false)
    (hrt : optBoolTruthy p.randomTime = false)
    (hl : optStrTruthy S.localVideoUrl = false)
    (hb : ∀ b ∈ deflate (stringify (compactPlaylistData p amb)), b < 256)
    (hinf : inflate (deflate (stringify (compactPlaylistData p amb))) =
      some (stringify (compactPlaylistData p amb)))
    (hpar : parseJson (stringify (compactPlaylistData p amb)) =
      some (compactPlaylistData p amb)) :
    lookupKey (compactPlaylistData p amb) "sr" = none ∧
    lookupKey (compactPlaylistData p amb) "rt" = none ∧
    lookupKey (compactShareData S) "l" = none ∧
    decodeSharedPlaylist inflate parseJson now rand
        (String.mk (encodePayload deflate stringify (compactPlaylistData p amb))) st =
      startPlaylist rand (decodedPlaylistOf now p) (ambientImport now amb st) ∧
    (decodedPlaylistOf now p).startRandom = .jundefined ∧
    (decodedPlaylistOf now p).randomTime = .jundefined ∧
    JVal.truthy (decodedPlaylistOf now p).startRandom = false := by
  refine ⟨pwire_sr_absent p amb hsr, pwire_rt_absent p amb hrt, wire_l_absent S hl,
    decodeSharedPlaylist_encode deflate stringify inflate parseJson now rand p amb st
      hb hinf hpar, ?_, ?_, ?_⟩
  · simp [decodedPlaylistOf, hsr]
  · simp [decodedPlaylistOf, hrt]
  · simp [decodedPlaylistOf, hsr, JVal.truthy]

/-- C6 witness: a concrete playlist with `startRandom` absent and
`randomTime` explicitly false, and a streaming video session. -/
theorem C6_witness :
    lookupKey (compactPlaylistData
      ⟨"p", "P", [⟨"i", "v", "u", "T", none, none⟩], 0, true, none, some false⟩ none)
      "sr" = none ∧
    lookupKey (compactPlaylistData
      ⟨"p", "P", [⟨"i", "v", "u", "T", none, none⟩], 0, true, none, some false⟩ none)
      "rt" = none ∧
    lookupKey (compactShareData ⟨some "v", none, "", "", "", []⟩) "l" = none ∧
    decodeSharedPlaylist (fun _ => some "J")
        (fun _ => some (compactPlaylistData
          ⟨"p", "P", [⟨"i", "v", "u", "T", none, none⟩], 0, true, none, some false⟩ none))
        6 2
        (String.mk (encodePayload (fun _ => [3]) (fun _ => "J")
          (compactPlaylistData
            ⟨"p", "P", [⟨"i", "v", "u", "T", none, none⟩], 0, true, none, some false⟩ none)))
        baseState =
      startPlaylist 2 (decodedPlaylistOf 6
        ⟨"p", "P", [⟨"i", "v", "u", "T", none, none⟩], 0, true, none, some false⟩)
        (ambientImport 6 none baseState) ∧
    (decodedPlaylistOf 6
      ⟨"p", "P", [⟨"i", "v", "u", "T", none, none⟩], 0, true, none, some false⟩).startRandom
      = .jundefined ∧
    (decodedPlaylistOf 6
      ⟨"p", "P", [⟨"i", "v", "u", "T", none, none⟩], 0, true, none, some false⟩).randomTime
      = .jundefined ∧
    JVal.truthy (decodedPlaylistOf 6
      ⟨"p", "P", [⟨"i", "v", "u", "T", none, none⟩], 0, true, none, some false⟩).startRandom
      = false :=
  C6_optional_flag_omission (fun _ => [3]) (fun _ => "J") (fun _ => some "J")
    (fun _ => some (compactPlaylistData
      ⟨"p", "P", [⟨"i", "v", "u", "T", none, none⟩], 0, true, none, some false⟩ none))
    6 2 ⟨"p", "P", [⟨"i", "v", "u", "T", none, none⟩], 0, true, none, some false⟩ none
    ⟨some "v", none, "", "", "", []⟩ baseState rfl rfl rfl (by decide) rfl rfl

/-- C6 counterexample: decoding a playlist payload without the `sr` key
yields an active reconstructed playlist whose `startRandom` is the
JavaScript `undefined`, which is a distinct value from `false` — the
claimed `undefined`-versus-`false` disambiguation does not occur. -/
theorem C6_counterexample :
    (decodeSharedPlaylist (fun _ => some "J")
      (fun _ => some (compactPlaylistData
        ⟨"p", "P", [⟨"i", "v", "u", "T", none, none⟩], 0, true, none, none⟩ none))
      4 0
      (String.mk (encodePayload (fun _ => [3]) (fun _ => "J")
        (compactPlaylistData
          ⟨"p", "P", [⟨"i", "v", "u", "T", none, none⟩], 0, true, none, none⟩ none)))
      baseState).1.activePlaylist =
      some (decodedPlaylistOf 4
        ⟨"p", "P", [⟨"i", "v", "u", "T", none, none⟩], 0, true, none, none⟩) ∧
    (decodedPlaylistOf 4
      ⟨"p", "P", [⟨"i", "v", "u", "T", none, none⟩], 0, true, none, none⟩).startRandom
      = .jundefined ∧
    JVal.jundefined ≠ JVal.jbool false :=
  ⟨rfl, rfl, fun h => JVal.noConfusion h⟩


/-- C7 (amended): identifiers of the elements inside a payload are
assigned deterministically from position — annotation identifiers
(`shared_i`) and playlist-item identifiers (`item_i`) are identical across
any two decodes of the same wire string, whatever the clock or random
values; but the reconstructed playlist's own identifier and the
ambient-track identifiers embed the decode-time clock (`Date.now()`), so
they coincide only for decodes sharing a timestamp.  The counterexample
exhibits two decodes of one payload with differing ambient and playlist
identifiers. -/
theorem C7_id_determinism (deflate : String → List Nat) (stringify : JVal → String)
    (inflate : List Nat → Option String) (parseJson : String → Option JVal)
    (S : ShareState) (p : Playlist) (amb : Option (List AmbientSound))
    (hbd : ∀ b ∈ deflate (stringify (compactShareData S)), b < 256)
    (hinfd : inflate (deflate (stringify (compactShareData S))) =
      some (stringify (compactShareData S)))
    (hpard : parseJson (stringify (compactShareData S)) = some (compactShareData S))
    (hbp : ∀ b ∈ deflate (stringify (compactPlaylistData p amb)), b < 256)
    (hinfp : inflate (deflate (stringify (compactPlaylistData p amb))) =
      some (stringify (compactPlaylistData p amb)))
    (hparp : parseJson (stringify (compactPlaylistData p amb)) =
      some (compactPlaylistData p amb)) :
    (∀ now : Nat, (decodeSharedData inflate parseJson now
        (String.mk (encodePayload deflate stringify (compactShareData S)))
        baseState).1.annotations = decodedAnnotsOf 0 S.annotations) ∧
    (∀ now rand : Nat, decodeSharedPlaylist inflate parseJson now rand
        (String.mk (encodePayload deflate stringify (compactPlaylistData p amb))) baseState =
      startPlaylist rand (decodedPlaylistOf now p) (ambientImport now amb baseState)) ∧
    (∀ now1 now2 : Nat, (decodedPlaylistOf now1 p).items.map DecPlaylistItem.id =
      (decodedPlaylistOf now2 p).items.map DecPlaylistItem.id) ∧
    (∀ now : Nat, (decodedPlaylistOf now p).id = "shared_" ++ toString now) ∧
    (∀ (now : Nat) (s : AmbientSound) (rest : List AmbientSound),
      amb = some (s :: rest) →
      (ambientImport now amb baseState).appData.ambientSounds =
        some (decodedAmbientOf now 0 (s :: rest))) := by
  refine ⟨?_, ?_, fun _ _ => rfl, fun _ => rfl, ?_⟩
  · intro now
    have hm := decodeSharedData_encode deflate stringify inflate parseJson now S baseState
      hbd hinfd hpard
    cases h : optStrTruthy S.localVideoUrl
    · rw [h] at hm
      simp only [Bool.false_eq_true, if_false] at hm
      rw [hm]
    · rw [h] at hm
      simp only [if_true] at hm
      rw [hm]
  · intro now rand
    exact decodeSharedPlaylist_encode deflate stringify inflate parseJson now rand p amb
      baseState hbp hinfp hparp
  · intro now s rest heq
    rw [heq]
    rfl

/-- C7 witness: the determinism properties at a concrete video session and
a concrete playlist with one ambient track, decoded at distinct clock
values. -/
theorem C7_witness :
    (decodeSharedData
      (fun bs => if bs = [1] then some "P" else some "undefined")
      (fun s => if s = "P" then
          some (compactPlaylistData
            ⟨"p", "P", [⟨"i", "v", "u", "T", none, none⟩], 0, true, none, none⟩ none)
        else
          some (compactShareData ⟨some "v", none, "", "", "n", [⟨"1", 2, "a", none⟩]⟩))
      31
      (String.mk (encodePayload (fun s => if s = "P" then [1] else [2])
        (fun w => jvalToString ((getField w "n").getD .jundefined))
        (compactShareData ⟨some "v", none, "", "", "n", [⟨"1", 2, "a", none⟩]⟩)))
      baseState).1.annotations = decodedAnnotsOf 0 [⟨"1", 2, "a", none⟩] ∧
    (decodedPlaylistOf 3
      ⟨"p", "P", [⟨"i", "v", "u", "T", none, none⟩], 0, true, none, none⟩).items.map
        DecPlaylistItem.id =
      (decodedPlaylistOf 8
        ⟨"p", "P", [⟨"i", "v", "u", "T", none, none⟩], 0, true, none, none⟩).items.map
        DecPlaylistItem.id := by
  have h := C7_id_determinism (fun s => if s = "P" then [1] else [2])
    (fun w => jvalToString ((getField w "n").getD .jundefined))
    (fun bs => if bs = [1] then some "P" else some "undefined")
    (fun s => if s = "P" then
        some (compactPlaylistData
          ⟨"p", "P", [⟨"i", "v", "u", "T", none, none⟩], 0, true, none, none⟩ none)
      else
        some (compactShareData ⟨some "v", none, "", "", "n", [⟨"1", 2, "a", none⟩]⟩))
    ⟨some "v", none, "", "", "n", [⟨"1", 2, "a", none⟩]⟩
    ⟨"p", "P", [⟨"i", "v", "u", "T", none, none⟩], 0, true, none, none⟩ none
    (by decide) rfl rfl (by decide) rfl rfl
  exact ⟨h.1 31, h.2.2.1 3 8⟩


/-- C7 counterexample: decoding the same playlist wire string at clock
values 0 and 1 yields different ambient-track identifiers and different
playlist identifiers, so identifiers are not all derived purely from
position; the playlist-item identifiers do coincide. -/
theorem C7_counterexample :
    ((decodeSharedPlaylist (fun _ => some "J")
      (fun _ => some (.jobj [("n", .jstr "P"),
        ("i", .jarr [.jobj [("v", .jstr "v"), ("u", .jstr "u"), ("t", .jstr "T")]]),
        ("lp", .jbool true),
        ("as", .jarr [.jobj [("v", .jstr "a"), ("t", .jstr "R")]])])) 0 0 "AAAA"
      baseState).1.appData.ambientSounds.map (fun l => l.map DecAmbientSound.id))
      = some ["ambient_0_0"] ∧
    ((decodeSharedPlaylist (fun _ => some "J")
      (fun _ => some (.jobj [("n", .jstr "P"),
        ("i", .jarr [.jobj [("v", .jstr "v"), ("u", .jstr "u"), ("t", .jstr "T")]]),
        ("lp", .jbool true),
        ("as", .jarr [.jobj [("v", .jstr "a"), ("t", .jstr "R")]])])) 1 0 "AAAA"
      baseState).1.appData.ambientSounds.map (fun l => l.map DecAmbientSound.id))
      = some ["ambient_1_0"] ∧
    (some ["ambient_0_0"] : Option (List String)) ≠ some ["ambient_1_0"] ∧
    ((decodeSharedPlaylist (fun _ => some "J")
      (fun _ => some (.jobj [("n", .jstr "P"),
        ("i", .jarr [.jobj [("v", .jstr "v"), ("u", .jstr "u"), ("t", .jstr "T")]]),
        ("lp", .jbool true),
        ("as", .jarr [.jobj [("v", .jstr "a"), ("t", .jstr "R")]])])) 0 0 "AAAA"
      baseState).1.activePlaylist.map DecPlaylist.id) = some "shared_0" ∧
    ((decodeSharedPlaylist (fun _ => some "J")
      (fun _ => some (.jobj [("n", .jstr "P"),
        ("i", .jarr [.jobj [("v", .jstr "v"), ("u", .jstr "u"), ("t", .jstr "T")]]),
        ("lp", .jbool true),
        ("as", .jarr [.jobj [("v", .jstr "a"), ("t", .jstr "R")]])])) 1 0 "AAAA"
      baseState).1.activePlaylist.map DecPlaylist.id) = some "shared_1" ∧
    (some "shared_0" : Option String) ≠ some "shared_1" ∧
    ((decodeSharedPlaylist (fun _ => some "J")
      (fun _ => some (.jobj [("n", .jstr "P"),
        ("i", .jarr [.jobj [("v", .jstr "v"), ("u", .jstr "u"), ("t", .jstr "T")]]),
        ("lp", .jbool true),
        ("as", .jarr [.jobj [("v", .jstr "a"), ("t", .jstr "R")]])])) 0 0 "AAAA"
      baseState).1.activePlaylist.map (fun dp => dp.items.map DecPlaylistItem.id))
      = ((decodeSharedPlaylist (fun _ => some "J")
      (fun _ => some (.jobj [("n", .jstr "P"),
        ("i", .jarr [.jobj [("v", .jstr "v"), ("u", .jstr "u"), ("t", .jstr "T")]]),
        ("lp", .jbool true),
        ("as", .jarr [.jobj [("v", .jstr "a"), ("t", .jstr "R")]])])) 1 0 "AAAA"
      baseState).1.activePlaylist.map (fun dp => dp.items.map DecPlaylistItem.id)) :=
  ⟨rfl, rfl, by decide, rfl, rfl, by decide, rfl⟩

/-- C10: decoding a playlist share whose wire payload holds a non-empty
ambient-track array replaces the Session Store's entire `ambientSounds`
library with the decoded tracks — the previous library is discarded, not
merged — while `folders`, `videos` and `playlists` are left unchanged, and
the decode completes without an exception. -/
theorem C10_ambient_replacement (inflate : List Nat → Option String)
    (parseJson : String → Option JVal) (now rand : Nat) (pdata : String)
    (st : SessionState) (w n lp sr rt : JVal) (axs ixs : List JVal)
    (items : List DecPlaylistItem) (sounds : List DecAmbientSound)
    (hw : decodeStages inflate parseJson pdata = some w)
    (hn : getField w "n" = some n) (hlp : getField w "lp" = some lp)
    (hsr : getField w "sr" = some sr) (hrt : getField w "rt" = some rt)
    (has : getField w "as" = some (.jarr axs)) (hax : axs ≠ [])
    (hi : (getField w "i").bind asArray = some ixs)
    (hitems : decItemsFrom 0 ixs = some items)
    (hsounds : decAmbientFrom now 0 axs = some sounds) :
    (decodeSharedPlaylist inflate parseJson now rand pdata st).1.appData.ambientSounds
      = some sounds ∧
    (decodeSharedPlaylist inflate parseJson now rand pdata st).1.appData.folders
      = st.appData.folders ∧
    (decodeSharedPlaylist inflate parseJson now rand pdata st).1.appData.videos
      = st.appData.videos ∧
    (decodeSharedPlaylist inflate parseJson now rand pdata st).1.appData.playlists
      = st.appData.playlists ∧
    (decodeSharedPlaylist inflate parseJson now rand pdata st).2 = true := by
  have hlen := decAmbientFrom_length now axs 0 sounds hsounds
  have hpos : 0 < axs.length := List.length_pos.mpr hax
  obtain ⟨first, tail, rfl⟩ : ∃ a t, sounds = a :: t := by
    cases sounds with
    | nil =>
        rw [List.length_nil] at hlen
        omega
    | cons a t => exact ⟨a, t, rfl⟩
  have hred : decodeSharedPlaylist inflate parseJson now rand pdata st =
      startPlaylist rand
        ⟨"shared_" ++ toString now, n, items, (now : ℚ), lp, sr, rt⟩
        { st with
          appData := { st.appData with ambientSounds := some (first :: tail) },
          ambientVideoId := first.videoId, currentAmbientId := first.videoId,
          ambientVideoTitle := first.title, ambientPlaying := true } := by
    have hconv : asArray (JVal.jarr axs) = some axs := rfl
    simp only [decodeSharedPlaylist, hw, hn, hlp, hsr, hrt, has, hconv, hi, hitems,
      JVal.truthy, jsLength, hsounds, decide_eq_true_eq]
    simp [hpos]
  rw [hred]
  refine ⟨?_, ?_, ?_, ?_, startPlaylist_success _ _ _⟩ <;>
    rw [startPlaylist_appData]


/-- C10 witness: a concrete payload with one ambient track decoded into a
state whose Session Store already holds a folder, a saved video, a
playlist, and an old ambient library: the ambient library is replaced
wholesale and everything else survives. -/
theorem C10_witness :
    (decodeSharedPlaylist (fun _ => some "x")
      (fun _ => some (.jobj [("n", .jstr "P"), ("i", .jarr []), ("lp", .jbool true),
        ("as", .jarr [.jobj [("v", .jstr "amb"), ("t", .jstr "Rain")]])])) 9 0 "AAAA"
      { baseState with
        appData :=
          { folders := [⟨"f", "F", none, true⟩],
            videos := [⟨"sv", "v", "T", "u", "", [], 0, none, none⟩],
            playlists := [⟨"pl", "PL", [], 0, false, none, none⟩],
            ambientSounds := some [⟨"old", .jstr "oldv", .jstr "Old"⟩] } }).1.appData.ambientSounds
      = some [⟨"ambient_9_0", .jstr "amb", .jstr "Rain"⟩] ∧
    (decodeSharedPlaylist (fun _ => some "x")
      (fun _ => some (.jobj [("n", .jstr "P"), ("i", .jarr []), ("lp", .jbool true),
        ("as", .jarr [.jobj [("v", .jstr "amb"), ("t", .jstr "Rain")]])])) 9 0 "AAAA"
      { baseState with
        appData :=
          { folders := [⟨"f", "F", none, true⟩],
            videos := [⟨"sv", "v", "T", "u", "", [], 0, none, none⟩],
            playlists := [⟨"pl", "PL", [], 0, false, none, none⟩],
            ambientSounds := some [⟨"old", .jstr "oldv", .jstr "Old"⟩] } }).1.appData.folders
      = [⟨"f", "F", none, true⟩] ∧
    (decodeSharedPlaylist (fun _ => some "x")
      (fun _ => some (.jobj [("n", .jstr "P"), ("i", .jarr []), ("lp", .jbool true),
        ("as", .jarr [.jobj [("v", .jstr "amb"), ("t", .jstr "Rain")]])])) 9 0 "AAAA"
      { baseState with
        appData :=
          { folders := [⟨"f", "F", none, true⟩],
            videos := [⟨"sv", "v", "T", "u", "", [], 0, none, none⟩],
            playlists := [⟨"pl", "PL", [], 0, false, none, none⟩],
            ambientSounds := some [⟨"old", .jstr "oldv", .jstr "Old"⟩] } }).1.appData.videos
      = [⟨"sv", "v", "T", "u", "", [], 0, none, none⟩] ∧
    (decodeSharedPlaylist (fun _ => some "x")
      (fun _ => some (.jobj [("n", .jstr "P"), ("i", .jarr []), ("lp", .jbool true),
        ("as", .jarr [.jobj [("v", .jstr "amb"), ("t", .jstr "Rain")]])])) 9 0 "AAAA"
      { baseState with
        appData :=
          { folders := [⟨"f", "F", none, true⟩],
            videos := [⟨"sv", "v", "T", "u", "", [], 0, none, none⟩],
            playlists := [⟨"pl", "PL", [], 0, false, none, none⟩],
            ambientSounds := some [⟨"old", .jstr "oldv", .jstr "Old"⟩] } }).1.appData.playlists
      = [⟨"pl", "PL", [], 0, false, none, none⟩] ∧
    (decodeSharedPlaylist (fun _ => some "x")
      (fun _ => some (.jobj [("n", .jstr "P"), ("i", .jarr []), ("lp", .jbool true),
        ("as", .jarr [.jobj [("v", .jstr "amb"), ("t", .jstr "Rain")]])])) 9 0 "AAAA"
      { baseState with
        appData :=
          { folders := [⟨"f", "F", none, true⟩],
            videos := [⟨"sv", "v", "T", "u", "", [], 0, none, none⟩],
            playlists := [⟨"pl", "PL", [], 0, false, none, none⟩],
            ambientSounds := some [⟨"old", .jstr "oldv", .jstr "Old"⟩] } }).2 = true := by
  have h := C10_ambient_replacement (fun _ => some "x")
    (fun _ => some (.jobj [("n", .jstr "P"), ("i", .jarr []), ("lp", .jbool true),
      ("as", .jarr [.jobj [("v", .jstr "amb"), ("t", .jstr "Rain")]])])) 9 0 "AAAA"
    { baseState with
      appData :=
        { folders := [⟨"f", "F", none, true⟩],
          videos := [⟨"sv", "v", "T", "u", "", [], 0, none, none⟩],
          playlists := [⟨"pl", "PL", [], 0, false, none, none⟩],
          ambientSounds := some [⟨"old", .jstr "oldv", .jstr "Old"⟩] } }
    (.jobj [("n", .jstr "P"), ("i", .jarr []), ("lp", .jbool true),
      ("as", .jarr [.jobj [("v", .jstr "amb"), ("t", .jstr "Rain")]])])
    (.jstr "P") (.jbool true) .jundefined .jundefined
    [.jobj [("v", .jstr "amb"), ("t", .jstr "Rain")]] [] []
    [⟨"ambient_9_0", .jstr "amb", .jstr "Rain"⟩]
    rfl rfl rfl rfl rfl rfl (List.cons_ne_nil _ _) rfl rfl rfl
  exact h

end AnnotateVideo
